import Mathlib

/-!
Verification of the scheduling, aggregation and publish-pipeline logic of an
ABB Aurora inverter telemetry firmware (src/src/main.cpp).

The firmware polls the inverter over a serial protocol, aggregates readings
into a JSON status snapshot, publishes the snapshot to an MQTT broker and
reports cumulative daily energy to the PVOutput cloud endpoint.

Shallow embedding conventions:
  * The mutable globals of main.cpp (energyToday, energyTodayLastUpdate,
    energyTodayLastPublished, inverterStatus) become the fields of
    `FirmwareState`.
  * The outcome of each inverter transaction during one cycle is an
    `InverterEnv`: a failed transaction (readState = 0) is `none`, a
    successful one is `some value`.  DSP (analog) values are modelled as
    rationals; a failed DSP read, which the source turns into the NAN
    sentinel, is `none`.
  * Epoch times and energies are `Nat` (unsigned long in the source; the
    values involved stay far below 2^32, so wrap-around never occurs on the
    modelled paths).
  * Serial logging is ignored; MQTT publications and PVOutput HTTP attempts
    are returned as explicit lists so that theorems can talk about them.
-/

/-- Scheduling period of the PVOutput (energy report) window, seconds
(default of the UPDATE_PERIOD_PVOUTPUT macro). -/
def UPDATE_PERIOD_PVOUTPUT : Nat := 300

/-- Scheduling period of the stats window, seconds (default of the
UPDATE_PERIOD_STATS macro). -/
def UPDATE_PERIOD_STATS : Nat := 30

/-- Default NTP_OFFSET macro value (seconds added to UTC to obtain local
time). -/
def NTP_OFFSET : Nat := 0

/-- toLocalTime from main.cpp, parametrised by the configured offset:
`return t + NTP_OFFSET;`. -/
def toLocalTime (off t : Nat) : Nat := t + off

/-- The mutable globals of main.cpp that the publish pipeline reads and
writes. -/
structure FirmwareState where
  energyToday : Nat
  energyTodayLastUpdate : Nat
  energyTodayLastPublished : Nat
  inverterStatus : String
deriving DecidableEq

/-- A scheduling window in the sense of the specification: the pair of one
period macro and one static deadline variable of loop() in main.cpp. -/
structure ScheduleWindow where
  periodSeconds : Nat
  nextDeadlineEpoch : Nat
deriving DecidableEq

/-- Window initialisation, as in the static initialisers of loop():
`nextUpdateTime = (getEpochTime() / PERIOD) * PERIOD + PERIOD`. -/
def ScheduleWindow.init (p e : Nat) : ScheduleWindow :=
  ⟨p, e / p * p + p⟩

/-- Due test, as in loop(): `getEpochTime() >= nextUpdateTime`. -/
def ScheduleWindow.isDue (w : ScheduleWindow) (e : Nat) : Bool :=
  w.nextDeadlineEpoch ≤ e

/-- Window advance, as in loop(): `nextUpdateTime += PERIOD`. -/
def ScheduleWindow.advance (w : ScheduleWindow) : ScheduleWindow :=
  ⟨w.periodSeconds, w.nextDeadlineEpoch + w.periodSeconds⟩

/-- Fixed-point rendering with two decimals, modelling the `%.2f` conversion
used by _formatFloat (the rounding of the value to a whole number of
hundredths is modelled by `round`). -/
def formatFixed2 (q : ℚ) : String :=
  let c : ℤ := round (q * 100)
  let sign := if c < 0 then "-" else ""
  let n := c.natAbs
  sign ++ toString (n / 100) ++ "." ++
    (if n % 100 < 10 then "0" else "") ++ toString (n % 100)

/-- Model of _formatFloat from main.cpp: a NAN value (here `none`) is rendered as the
literal string NaN, any other value with two decimals. -/
def formatFloat (v : Option ℚ) : String :=
  match v with
  | none => "NaN"
  | some q => formatFixed2 q

/-- Outcome of the inverter transactions issued during one cycle.  A `none`
means the transaction came back with readState = 0 (the source then logs a
diagnostic and substitutes its sentinel: NAN for DSP reads, no assignment
for the cumulated-energy reads). -/
structure InverterEnv where
  online : Bool
  readDailyEnergy : Option Nat
  readLifetimeEnergy : Option Nat
  dspPIn1 : Option ℚ
  dspPIn2 : Option ℚ
  dspVGrid : Option ℚ
  dspFGrid : Option ℚ
  dspTempInverter : Option ℚ
  dspTempBooster : Option ℚ
deriving DecidableEq

/-- The local variables of inverterUpdateStatus after all sub-reads of one
stats cycle have completed. -/
structure StatusLocals where
  energyToday : Nat
  energyLifetime : Nat
  pIn1 : Option ℚ
  pIn2 : Option ℚ
  pIn : Option ℚ
  vGrid : Option ℚ
  fGrid : Option ℚ
  tempInverter : Option ℚ
  tempBooster : Option ℚ
deriving DecidableEq

/-- The sub-read section of inverterUpdateStatus: the energy locals are
initialised to 0 and overwritten only on a successful read; the DSP locals
are initialised to NAN (`none`) and overwritten by inverterReadDSP, which
itself yields NAN on failure; pIn is the sum of the string powers only when
both are numbers (`if (!isnan(pIn1) && !isnan(pIn2)) pIn = pIn1 + pIn2;`). -/
def statusLocals (env : InverterEnv) : StatusLocals :=
  let energyToday := match env.readDailyEnergy with
    | none => 0
    | some e => e
  let energyLifetime := match env.readLifetimeEnergy with
    | none => 0
    | some e => e
  let pIn1 := env.dspPIn1
  let pIn2 := env.dspPIn2
  let pIn : Option ℚ := match pIn1, pIn2 with
    | some a, some b => some (a + b)
    | _, _ => none
  { energyToday := energyToday
    energyLifetime := energyLifetime
    pIn1 := pIn1
    pIn2 := pIn2
    pIn := pIn
    vGrid := env.dspVGrid
    fGrid := env.dspFGrid
    tempInverter := env.dspTempInverter
    tempBooster := env.dspTempBooster }

/-- MQTT topic format constants of main.cpp (the `%s` is replaced by the
configured topic name by mqttTopic; the claims only distinguish the four
kinds, so messages are tagged with the format constant). -/
def mqttTopicStat : String := "tele/%s/STAT"

/-- Topic format of the scalar power message. -/
def mqttTopicPower : String := "tele/%s/POWER"

/-- Topic format of the freeform diagnostic log message. -/
def mqttTopicLog : String := "tele/%s/LOG"

/-- One message handed to pubSubClient.publish. -/
structure MqttMsg where
  topic : String
  payload : String
deriving DecidableEq

/-- The snprintf into the inverterStatus global at the end of
inverterUpdateStatus (the 2048-byte buffer is never exceeded by the
modelled values, so truncation is not modelled). -/
def renderStatus (now : Nat) (s : FirmwareState) (l : StatusLocals) : String :=
  "\x7b\"last_update\": " ++ toString now ++
  ", \"energy_today\": " ++ toString l.energyToday ++
  ", \"energy_total\": " ++ toString l.energyLifetime ++
  ", \"last_pvoutput_read\": " ++ toString s.energyTodayLastUpdate ++
  ", \"last_pvoutput_sent\": " ++ toString s.energyTodayLastPublished ++
  ", \"p_in\": " ++ formatFloat l.pIn ++
  ", \"p_in_1\": " ++ formatFloat l.pIn1 ++
  ", \"p_in_2\": " ++ formatFloat l.pIn2 ++
  ", \"grid_voltage\": " ++ formatFloat l.vGrid ++
  ", \"grid_frequency\": " ++ formatFloat l.fGrid ++
  ", \"temp_inverter\": " ++ formatFloat l.tempInverter ++
  ", \"temp_booster\": " ++ formatFloat l.tempBooster ++ "\x7d"

/-- inverterUpdateStatus from main.cpp.  If the liveness probe reports the
inverter offline the function returns at once; otherwise it performs the
sub-reads, overwrites the inverterStatus global wholesale, and, when the
broker is connected, publishes the POWER message (only when pIn is a
number) followed by the STAT message.  The returned list holds the
publications of this cycle in order. -/
def inverterUpdateStatus (env : InverterEnv) (mqttConn : Bool) (now : Nat)
    (s : FirmwareState) : FirmwareState × List MqttMsg :=
  if env.online = false then
    (s, [])
  else
    let l := statusLocals env
    let status := renderStatus now s l
    let s := { s with inverterStatus := status }
    let msgs : List MqttMsg :=
      if mqttConn then
        (match l.pIn with
          | some _ => [⟨mqttTopicPower, formatFloat l.pIn⟩]
          | none => []) ++ [⟨mqttTopicStat, status⟩]
      else []
    (s, msgs)

/-- Observable actions of the MQTT helper routines: a blocking
connect-and-retry sequence (mqttConnectCheck with the client currently
disconnected) or one call of pubSubClient.publish. -/
inductive MqttEvent where
  | connectCheck : MqttEvent
  | publish : String → String → MqttEvent
deriving DecidableEq

/-- mqttConnectCheck from main.cpp: its while loop runs zero times when the
client is already connected, and otherwise blocks in a connect/retry loop
until the connection is established. -/
def mqttConnectCheckEvents (connected : Bool) : List MqttEvent :=
  if connected then [] else [MqttEvent.connectCheck]

/-- mqttSend from main.cpp: calls mqttConnectCheck only when its
waitForConnection argument (default false) is set, then publishes
unconditionally. -/
def mqttSendEvents (connected : Bool) (topicFmt msg : String)
    (waitForConnection : Bool) : List MqttEvent :=
  (if waitForConnection then mqttConnectCheckEvents connected else []) ++
    [MqttEvent.publish topicFmt msg]

/-- mqttLog from main.cpp: the formatted diagnostic is published only when
the client is currently connected (`if (mqttConnected())`); otherwise the
function body is skipped entirely. -/
def mqttLogEvents (connected : Bool) (msg : String) : List MqttEvent :=
  if connected then [MqttEvent.publish mqttTopicLog msg] else []

/-- Gregorian leap-year test of the external TimeLib collaborator (year is a
calendar year such as 1970). -/
def isLeapYear (y : Nat) : Bool :=
  y % 4 = 0 && (y % 100 ≠ 0 || y % 400 = 0)

/-- Days in a calendar year. -/
def daysInYear (y : Nat) : Nat := if isLeapYear y then 366 else 365

/-- Year loop of TimeLib breakTime, written with a structural fuel argument
so that it evaluates inside the kernel: each step consumes at least 365
days, so a fuel equal to the day count never runs out. -/
def yearSplitAux : Nat → Nat → Nat → Nat × Nat
  | 0, y, d => (y, d)
  | fuel + 1, y, d =>
      if d < daysInYear y then (y, d)
      else yearSplitAux fuel (y + 1) (d - daysInYear y)

/-- Splits a count of whole days since the start of year `y` into the
calendar year reached and the remaining day offset inside it (the year loop
of TimeLib breakTime). -/
def yearSplit (y d : Nat) : Nat × Nat := yearSplitAux d y d

/-- Month lengths, February according to the leap flag. -/
def monthDays (leap : Bool) : List Nat :=
  [31, if leap then 29 else 28, 31, 30, 31, 30, 31, 31, 30, 31, 30, 31]

/-- Splits a day offset inside a year into month number (1-based) and day
offset inside the month (the month loop of TimeLib breakTime). -/
def monthSplit : List Nat → Nat → Nat → Nat × Nat
  | [], m, d => (m, d)
  | len :: rest, m, d =>
      if d < len then (m, d) else monthSplit rest (m + 1) (d - len)

/-- Civil date (year, month, day-of-month) of a Unix epoch time, as computed
by TimeLib breakTime. -/
def civilFromEpoch (t : Nat) : Nat × Nat × Nat :=
  let days := t / 86400
  let yr := yearSplit 1970 days
  let mr := monthSplit (monthDays (isLeapYear yr.1)) 1 yr.2
  (yr.1, mr.1, mr.2 + 1)

/-- TimeLib year(t). -/
def year (t : Nat) : Nat := (civilFromEpoch t).1

/-- TimeLib month(t). -/
def month (t : Nat) : Nat := (civilFromEpoch t).2.1

/-- TimeLib day(t). -/
def day (t : Nat) : Nat := (civilFromEpoch t).2.2

/-- TimeLib hour(t). -/
def hour (t : Nat) : Nat := t / 3600 % 24

/-- TimeLib minute(t). -/
def minute (t : Nat) : Nat := t / 60 % 60

/-- Left zero padding to width `w`, as done by the %04d and %02d conversions
in pvOutputSend. -/
def zeroPad (w n : Nat) : String :=
  String.mk (List.replicate (w - (toString n).length) '0') ++ toString n

/-- The post_data payload built by pvOutputSend from the energyToday and
energyTodayLastUpdate globals:
`d=%04d%02d%02d&t=%02d:%02d&v1=%lu&c1=0`, with the date and time fields
taken from the sample epoch converted to local time. -/
def pvOutputPayload (off : Nat) (s : FirmwareState) : String :=
  let timeLocal := toLocalTime off s.energyTodayLastUpdate
  "d=" ++ zeroPad 4 (year timeLocal) ++ zeroPad 2 (month timeLocal) ++
    zeroPad 2 (day timeLocal) ++
  "&t=" ++ zeroPad 2 (hour timeLocal) ++ ":" ++ zeroPad 2 (minute timeLocal) ++
  "&v1=" ++ toString s.energyToday ++ "&c1=0"

/-- pvOutputSend from main.cpp, with the behaviour of the HTTP collaborator
supplied as arguments: `beginOk` is the result of http.begin, `httpCode`
the result of http.POST (negative on transport failure).  Returns the
boolean result together with the updated globals: only an HTTP status of
exactly 200 yields true, and only then is energyTodayLastPublished set (to
the epoch time observed after the transaction). -/
def pvOutputSend (beginOk : Bool) (httpCode : Int) (now : Nat)
    (s : FirmwareState) : Bool × FirmwareState :=
  if beginOk = false then
    (false, s)
  else if httpCode = 200 then
    (true, { s with energyTodayLastPublished := now })
  else
    (false, s)

/-- External behaviour during one pass of loop(): the epoch time (assumed
stable across the calls of getEpochTime inside the pass), the outcome of
the inverter transactions, the WiFi and broker connection states, and the
outcome of the HTTP collaborator should a PVOutput post be attempted. -/
structure LoopEnv where
  now : Nat
  inv : InverterEnv
  wifiConnected : Bool
  mqttConnected : Bool
  pvBeginOk : Bool
  pvHttpCode : Int
deriving DecidableEq

/-- Persistent state across passes of loop(): the two static deadline
variables and the firmware globals.  The pvOutputUpdatePending flag of
loop() is deliberately absent: in the source it is a plain (non-static)
local, re-initialised to false on every pass. -/
structure LoopState where
  nextUpdateTime : Nat
  nextStatsTime : Nat
  fw : FirmwareState
deriving DecidableEq

/-- The static initialisers of loop(), run with the boot epoch time. -/
def LoopState.start (bootEpoch : Nat) (fw : FirmwareState) : LoopState :=
  { nextUpdateTime :=
      bootEpoch / UPDATE_PERIOD_PVOUTPUT * UPDATE_PERIOD_PVOUTPUT +
        UPDATE_PERIOD_PVOUTPUT
    nextStatsTime :=
      bootEpoch / UPDATE_PERIOD_STATS * UPDATE_PERIOD_STATS +
        UPDATE_PERIOD_STATS
    fw := fw }

/-- One pass of loop() from main.cpp.  Returns the new persistent state,
the MQTT messages published by the stats cycle, and the PVOutput post
payloads attempted (at most one).  Structure of the pass:
  1. `bool pvOutputUpdatePending = false;` (local, fresh each pass);
  2. if the energy window is due: inverterSetTime (no modelled state), then
     inverterReadTodayEnergy, which on success overwrites the energyToday
     and energyTodayLastUpdate globals and sets the pending local; the
     window is advanced by exactly one period either way;
  3. if the stats window is due: inverterUpdateStatus, window advanced by
     exactly one period;
  4. if the pending local is set and WiFi is connected: pvOutputSend, with
     a fixed one-second delay after a failure (no modelled state). -/
def loopIter (env : LoopEnv) (s : LoopState) :
    LoopState × List MqttMsg × List String :=
  let pending := false
  let su :=
    if s.nextUpdateTime ≤ env.now then
      let fwp :=
        match env.inv.readDailyEnergy with
        | some e =>
            ({ s.fw with energyToday := e, energyTodayLastUpdate := env.now },
              true)
        | none => (s.fw, pending)
      ({ s with
          fw := fwp.1
          nextUpdateTime := s.nextUpdateTime + UPDATE_PERIOD_PVOUTPUT },
        fwp.2)
    else (s, pending)
  let ss :=
    if su.1.nextStatsTime ≤ env.now then
      let r := inverterUpdateStatus env.inv env.mqttConnected env.now su.1.fw
      ({ su.1 with
          fw := r.1
          nextStatsTime := su.1.nextStatsTime + UPDATE_PERIOD_STATS },
        r.2)
    else (su.1, [])
  if su.2 && env.wifiConnected then
    let payload := pvOutputPayload NTP_OFFSET ss.1.fw
    let r := pvOutputSend env.pvBeginOk env.pvHttpCode env.now ss.1.fw
    ({ ss.1 with fw := r.2 }, ss.2, [payload])
  else
    (ss.1, ss.2, [])

/-- The firmware globals as initialised at boot (inverterStatus starts as
the two-character object). -/
def fwInit : FirmwareState := ⟨0, 0, 0, "\x7b\x7d"⟩

/-- One cycle in which the daily-energy read succeeds with value 4200 and
everything else fails. -/
def c1Read : InverterEnv :=
  ⟨true, some 4200, none, none, none, none, none, none, none⟩

/-- Loop pass at epoch 1200 (energy window due), WiFi up, broker down, HTTP
collaborator answering status 500. -/
def c1Env1 : LoopEnv := ⟨1200, c1Read, true, false, true, 500⟩

/-- The following loop pass, one second later, same collaborators. -/
def c1Env2 : LoopEnv := ⟨1201, c1Read, true, false, true, 500⟩

/-- Persistent loop state with the energy window due at 1200 and the stats
window far in the future. -/
def c1Start : LoopState := ⟨1200, 2000000, fwInit⟩

/-- Stats cycle in which the daily-energy read fails while the
lifetime-energy read succeeds (the analog reads fail as well). -/
def c2Env : InverterEnv :=
  ⟨true, none, some 9999, none, none, none, none, none, none⟩

/-- Prior firmware state for the C2 scenario: an earlier cycle had obtained
a valid daily energy of 123. -/
def c2Fw : FirmwareState := ⟨123, 5, 6, "old"⟩

/-- Cycle with both string-power reads successful (2 and 3). -/
def c6Env : InverterEnv :=
  ⟨true, none, none, some 2, some 3, none, none, none, none⟩

/-- Cycle in which the liveness probe reports the inverter offline. -/
def c7Env : InverterEnv :=
  ⟨false, some 1, some 2, some 3, some 4, some 5, some 6, some 7, some 8⟩

/-- Prior state for the offline-cycle scenario. -/
def c7Fw : FirmwareState := ⟨1, 2, 3, "prior"⟩

/-- The PVOutput scenario reading: value 4200, sample epoch 50000. -/
def c9Fw : FirmwareState := ⟨4200, 50000, 0, "\x7b\x7d"⟩

/-- Fully successful stats cycle (both string powers present). -/
def c10EnvSome : InverterEnv :=
  ⟨true, some 1, some 2, some 3, some 4, some 5, some 6, some 7, some 8⟩

/-- Stats cycle with the first string-power read failed. -/
def c10EnvNone : InverterEnv :=
  ⟨true, some 1, some 2, none, some 4, some 5, some 6, some 7, some 8⟩

/-- Claim C4: for every period > 0 and current epoch, window initialisation
yields a deadline that is a multiple of the period and strictly after the
current epoch; with the default periods (energy 300, stats 30) and boot
epoch 1000 the first deadlines are 1200 and 1020. -/
theorem scheduleInit_aligned_future (p e : Nat) (hp : 0 < p) :
    (ScheduleWindow.init p e).nextDeadlineEpoch % p = 0 ∧
    e < (ScheduleWindow.init p e).nextDeadlineEpoch ∧
    (∀ fw : FirmwareState,
      (LoopState.start 1000 fw).nextUpdateTime = 1200 ∧
      (LoopState.start 1000 fw).nextStatsTime = 1020) := by
  refine ⟨?_, ?_, fun fw => ⟨rfl, rfl⟩⟩
  · show (e / p * p + p) % p = 0
    rw [Nat.add_comm, Nat.add_mul_mod_self_right, Nat.mod_self]
  · exact Nat.lt_div_mul_add hp

/-- Witness for C4 at period 300, epoch 1000. -/
theorem scheduleInit_aligned_future_witness :
    (ScheduleWindow.init 300 1000).nextDeadlineEpoch % 300 = 0 ∧
    1000 < (ScheduleWindow.init 300 1000).nextDeadlineEpoch :=
  ⟨(scheduleInit_aligned_future 300 1000 (by decide)).1,
   (scheduleInit_aligned_future 300 1000 (by decide)).2.1⟩

/-- Every iterate of advance lands the deadline exactly n periods after the
starting deadline (the period itself is never changed). -/
theorem scheduleAdvance_iterate (n : Nat) (w : ScheduleWindow) :
    ScheduleWindow.advance^[n] w =
      ⟨w.periodSeconds, w.nextDeadlineEpoch + n * w.periodSeconds⟩ := by
  induction n generalizing w with
  | zero => simp
  | succ k ih =>
      rw [Function.iterate_succ_apply, ih]
      simp [ScheduleWindow.advance]
      ring

/-- Claim C5: each advance adds exactly the period to the deadline, so the
deadline sequence is strictly increasing for a positive period; and one
pass of loop() advances a due window by exactly one period (a window that
is not due is left alone). -/
theorem scheduleAdvance_exact_increment (w : ScheduleWindow) (n : Nat) :
    (ScheduleWindow.advance^[n] w).nextDeadlineEpoch =
      w.nextDeadlineEpoch + n * w.periodSeconds ∧
    (0 < w.periodSeconds →
      (ScheduleWindow.advance^[n] w).nextDeadlineEpoch <
        (ScheduleWindow.advance^[n + 1] w).nextDeadlineEpoch) ∧
    (∀ (env : LoopEnv) (s : LoopState),
      (loopIter env s).1.nextUpdateTime =
        (if s.nextUpdateTime ≤ env.now
          then s.nextUpdateTime + UPDATE_PERIOD_PVOUTPUT
          else s.nextUpdateTime) ∧
      (loopIter env s).1.nextStatsTime =
        (if s.nextStatsTime ≤ env.now
          then s.nextStatsTime + UPDATE_PERIOD_STATS
          else s.nextStatsTime)) := by
  refine ⟨?_, ?_, ?_⟩
  · rw [scheduleAdvance_iterate]
  · intro hp
    rw [scheduleAdvance_iterate, scheduleAdvance_iterate]
    simp only
    nlinarith
  · intro env s
    rcases hr : env.inv.readDailyEnergy with _ | e <;>
      by_cases h1 : s.nextUpdateTime ≤ env.now <;>
      by_cases h2 : s.nextStatsTime ≤ env.now <;>
      by_cases h3 : env.wifiConnected <;>
        simp [loopIter, h1, h2, h3, hr, inverterUpdateStatus]

/-- Witness for C5: two and three advances of the stats window started at
deadline 1020. -/
theorem scheduleAdvance_exact_increment_witness :
    (ScheduleWindow.advance^[2] ⟨30, 1020⟩).nextDeadlineEpoch <
      (ScheduleWindow.advance^[3] ⟨30, 1020⟩).nextDeadlineEpoch :=
  (scheduleAdvance_exact_increment ⟨30, 1020⟩ 2).2.1 (by decide)

/-- Claim C1 counterexample: a loop pass at epoch 1200 whose energy window
is due reads 4200, attempts the PVOutput post, and the HTTP collaborator
answers 500; the attempt fails (energyTodayLastPublished stays 0), and the
following loop pass one second later attempts no post at all, because the
pvOutputUpdatePending flag of loop() is a non-static local that is
re-initialised to false on every pass. -/
theorem loop_failed_send_not_retried_cex :
    (loopIter c1Env1 c1Start).2.2 = ["d=19700101&t=00:20&v1=4200&c1=0"] ∧
    (loopIter c1Env1 c1Start).1.fw.energyTodayLastPublished = 0 ∧
    (loopIter c1Env2 (loopIter c1Env1 c1Start).1).2.2 = [] := by
  exact ⟨by decide, by decide, by decide⟩

/-- Claim C1 as amended: the pending flag lives only inside a single pass
of loop(), so a PVOutput post is attempted in exactly those passes whose
energy window is due, whose daily-energy read succeeds and in which WiFi is
connected; a failed post is not retried on later passes. -/
theorem loop_send_attempt_iff (env : LoopEnv) (s : LoopState) :
    (loopIter env s).2.2 ≠ [] ↔
      (s.nextUpdateTime ≤ env.now ∧
        env.inv.readDailyEnergy.isSome = true ∧
        env.wifiConnected = true) := by
  rcases hr : env.inv.readDailyEnergy with _ | e <;>
    by_cases h1 : s.nextUpdateTime ≤ env.now <;>
    by_cases h2 : s.nextStatsTime ≤ env.now <;>
    by_cases h3 : env.wifiConnected <;>
      simp [loopIter, h1, h2, h3, hr, inverterUpdateStatus]

/-- Claim C2 counterexample: in a stats cycle whose daily-energy read fails
while the lifetime-energy read succeeds with 9999, the freshly built
snapshot renders the energy_today field as 0 (the initial value of the
unsigned local), not as the missing marker NaN, even though a prior cycle
had obtained the valid value 123. -/
theorem snapshot_failed_energy_not_nan_cex :
    c2Env.readDailyEnergy = none ∧
    c2Fw.energyToday = 123 ∧
    (statusLocals c2Env).energyToday = 0 ∧
    toString (statusLocals c2Env).energyToday ≠ "NaN" ∧
    (inverterUpdateStatus c2Env false 100 c2Fw).1.inverterStatus =
      "\x7b\"last_update\": 100, \"energy_today\": 0, \"energy_total\": 9999, \"last_pvoutput_read\": 5, \"last_pvoutput_sent\": 6, \"p_in\": NaN, \"p_in_1\": NaN, \"p_in_2\": NaN, \"grid_voltage\": NaN, \"grid_frequency\": NaN, \"temp_inverter\": NaN, \"temp_booster\": NaN\x7d" := by
  refine ⟨rfl, rfl, rfl, by decide, ?_⟩
  set_option maxRecDepth 8000 in decide

/-- Claim C2 as amended: the snapshot is rebuilt wholesale from the current
cycle; every float-valued field whose sub-read failed (and the derived
total power when either string power is missing) renders as the literal
string NaN, while the two unsigned energy fields render as the number 0
when their read failed. -/
theorem snapshot_missing_markers (env : InverterEnv) (mc : Bool) (now : Nat)
    (s : FirmwareState) (h : env.online = true) :
    (env.dspPIn1 = none → formatFloat (statusLocals env).pIn1 = "NaN") ∧
    (env.dspPIn2 = none → formatFloat (statusLocals env).pIn2 = "NaN") ∧
    (env.dspVGrid = none → formatFloat (statusLocals env).vGrid = "NaN") ∧
    (env.dspFGrid = none → formatFloat (statusLocals env).fGrid = "NaN") ∧
    (env.dspTempInverter = none →
      formatFloat (statusLocals env).tempInverter = "NaN") ∧
    (env.dspTempBooster = none →
      formatFloat (statusLocals env).tempBooster = "NaN") ∧
    (env.dspPIn1 = none ∨ env.dspPIn2 = none →
      formatFloat (statusLocals env).pIn = "NaN") ∧
    (env.readDailyEnergy = none → (statusLocals env).energyToday = 0) ∧
    (env.readLifetimeEnergy = none →
      (statusLocals env).energyLifetime = 0) ∧
    (inverterUpdateStatus env mc now s).1.inverterStatus =
      renderStatus now s (statusLocals env) := by
  refine ⟨?_, ?_, ?_, ?_, ?_, ?_, ?_, ?_, ?_, ?_⟩
  · intro h1; simp [statusLocals, formatFloat, h1]
  · intro h2
    rcases h1 : env.dspPIn1 <;> simp [statusLocals, formatFloat, h1, h2]
  · intro hv; simp [statusLocals, formatFloat, hv]
  · intro hf; simp [statusLocals, formatFloat, hf]
  · intro ht; simp [statusLocals, formatFloat, ht]
  · intro ht; simp [statusLocals, formatFloat, ht]
  · rintro (h1 | h2)
    · simp [statusLocals, formatFloat, h1]
    · rcases h1 : env.dspPIn1 <;> simp [statusLocals, formatFloat, h1, h2]
  · intro he; simp [statusLocals, he]
  · intro he; simp [statusLocals, he]
  · simp [inverterUpdateStatus, h]

/-- Witness for the amended C2 at the concrete failing cycle. -/
theorem snapshot_missing_markers_witness :
    (statusLocals c2Env).energyToday = 0 ∧
    (inverterUpdateStatus c2Env false 100 c2Fw).1.inverterStatus =
      renderStatus 100 c2Fw (statusLocals c2Env) := by
  have h := snapshot_missing_markers c2Env false 100 c2Fw rfl
  exact ⟨h.2.2.2.2.2.2.2.1 rfl, h.2.2.2.2.2.2.2.2.2⟩

/-- Claim C3 counterexample: a diagnostic sent while the broker is
disconnected produces no event at all — in particular no blocking
reconnect sequence — because mqttLog only publishes under an
`if (mqttConnected())` guard and never calls mqttConnectCheck. -/
theorem mqttLog_disconnected_drops_cex :
    mqttLogEvents false "PV Output update error" = [] ∧
    MqttEvent.connectCheck ∉ mqttLogEvents false "PV Output update error" := by
  exact ⟨rfl, by decide⟩

/-- Claim C3 as amended: a diagnostic log line is published only when the
broker is already connected and is silently dropped otherwise, with no
reconnect attempted; the reconnect-before-publish behaviour exists only in
mqttSend when its waitForConnection argument is set, a path no diagnostic
send uses. -/
theorem mqttLog_connected_only (msg topicFmt : String) :
    mqttLogEvents false msg = [] ∧
    mqttLogEvents true msg = [MqttEvent.publish mqttTopicLog msg] ∧
    mqttSendEvents false topicFmt msg true =
      [MqttEvent.connectCheck, MqttEvent.publish topicFmt msg] ∧
    mqttSendEvents false topicFmt msg false =
      [MqttEvent.publish topicFmt msg] := by
  refine ⟨rfl, rfl, rfl, rfl⟩

/-- Claim C6: the derived total input power is the exact sum of the two
string powers when both reads succeed, and is missing whenever either read
fails — a partial sum is never produced. -/
theorem pIn_no_partial_sum (env : InverterEnv) :
    (∀ a b : ℚ, env.dspPIn1 = some a → env.dspPIn2 = some b →
      (statusLocals env).pIn = some (a + b)) ∧
    (env.dspPIn1 = none ∨ env.dspPIn2 = none →
      (statusLocals env).pIn = none) := by
  constructor
  · intro a b h1 h2
    simp [statusLocals, h1, h2]
  · rintro (h1 | h2)
    · simp [statusLocals, h1]
    · rcases h1 : env.dspPIn1 <;> simp [statusLocals, h1, h2]

/-- Witness for C6: string powers 2 and 3 give total 2 + 3. -/
theorem pIn_no_partial_sum_witness :
    (statusLocals c6Env).pIn = some (2 + 3) :=
  (pIn_no_partial_sum c6Env).1 2 3 rfl rfl

/-- Claim C7: a stats cycle started while the liveness probe reports the
inverter offline leaves the firmware state (snapshot string included)
byte-for-byte unchanged and publishes nothing. -/
theorem offline_cycle_frame (env : InverterEnv) (mc : Bool) (now : Nat)
    (s : FirmwareState) (h : env.online = false) :
    inverterUpdateStatus env mc now s = (s, []) := by
  simp [inverterUpdateStatus, h]

/-- Witness for C7 at a concrete offline cycle. -/
theorem offline_cycle_frame_witness :
    inverterUpdateStatus c7Env true 999 c7Fw = (c7Fw, []) :=
  offline_cycle_frame c7Env true 999 c7Fw rfl

/-- Claim C8: a PVOutput submission succeeds exactly when http.begin
succeeds and the HTTP status is exactly 200; on success the last-published
timestamp is set to the observed epoch time, and on any failure the
firmware state is left unchanged. -/
theorem pvOutputSend_success_semantics (b : Bool) (c : Int) (now : Nat)
    (s : FirmwareState) :
    ((pvOutputSend b c now s).1 = true ↔ (b = true ∧ c = 200)) ∧
    ((pvOutputSend b c now s).1 = true →
      (pvOutputSend b c now s).2 =
        { s with energyTodayLastPublished := now }) ∧
    ((pvOutputSend b c now s).1 = false →
      (pvOutputSend b c now s).2 = s) := by
  rcases b <;> by_cases hc : c = 200 <;>
    simp [pvOutputSend, hc]

/-- Witness for C8: status 200 records the timestamp, status 500 leaves the
state unchanged. -/
theorem pvOutputSend_success_semantics_witness :
    (pvOutputSend true 200 777 fwInit).2 =
      { fwInit with energyTodayLastPublished := 777 } ∧
    (pvOutputSend true 500 777 fwInit).2 = fwInit :=
  ⟨(pvOutputSend_success_semantics true 200 777 fwInit).2.1 rfl,
   (pvOutputSend_success_semantics true 500 777 fwInit).2.2 rfl⟩

/-- Claim C9: the PVOutput payload is exactly
d=YYYYMMDD&t=HH:MM&v1=VALUE&c1=0, with the calendar fields taken from the
sample epoch of the pending reading converted to local time; for value
4200, sample epoch 50000 and offset 0 it equals
d=19700101&t=13:53&v1=4200&c1=0. -/
theorem pvOutputPayload_shape :
    (∀ (off : Nat) (s : FirmwareState),
      pvOutputPayload off s =
        "d=" ++ zeroPad 4 (year (toLocalTime off s.energyTodayLastUpdate)) ++
          zeroPad 2 (month (toLocalTime off s.energyTodayLastUpdate)) ++
          zeroPad 2 (day (toLocalTime off s.energyTodayLastUpdate)) ++
          "&t=" ++ zeroPad 2 (hour (toLocalTime off s.energyTodayLastUpdate)) ++
          ":" ++ zeroPad 2 (minute (toLocalTime off s.energyTodayLastUpdate)) ++
          "&v1=" ++ toString s.energyToday ++ "&c1=0") ∧
    pvOutputPayload 0 c9Fw = "d=19700101&t=13:53&v1=4200&c1=0" := by
  exact ⟨fun off s => rfl, by decide⟩

/-- Claim C10: at the end of a successful stats cycle with the broker
connected, the STAT message is always published; the POWER message is
published (before it) only when the derived total input power is present,
and is silently omitted when it is missing. -/
theorem stats_publish_policy (env : InverterEnv) (now : Nat)
    (s : FirmwareState) (h : env.online = true) :
    ((statusLocals env).pIn = none →
      (inverterUpdateStatus env true now s).2 =
        [⟨mqttTopicStat, renderStatus now s (statusLocals env)⟩]) ∧
    (∀ q : ℚ, (statusLocals env).pIn = some q →
      (inverterUpdateStatus env true now s).2 =
        [⟨mqttTopicPower, formatFloat (statusLocals env).pIn⟩,
          ⟨mqttTopicStat, renderStatus now s (statusLocals env)⟩]) := by
  constructor
  · intro hp
    simp [inverterUpdateStatus, h, hp]
  · intro q hp
    simp [inverterUpdateStatus, h, hp]

/-- Witness for C10: with the first string power missing only STAT goes
out; with both present POWER is sent before STAT. -/
theorem stats_publish_policy_witness :
    (inverterUpdateStatus c10EnvNone true 42 fwInit).2 =
      [⟨mqttTopicStat, renderStatus 42 fwInit (statusLocals c10EnvNone)⟩] ∧
    (inverterUpdateStatus c10EnvSome true 42 fwInit).2 =
      [⟨mqttTopicPower, formatFloat (statusLocals c10EnvSome).pIn⟩,
        ⟨mqttTopicStat, renderStatus 42 fwInit (statusLocals c10EnvSome)⟩] :=
  ⟨(stats_publish_policy c10EnvNone 42 fwInit rfl).1 rfl,
   (stats_publish_policy c10EnvSome 42 fwInit rfl).2 (3 + 4) rfl⟩
